import Mathlib

/-!
# Verification of the game session lifecycle of `gaming-app-backend`

Shallow embedding of `src/game/game.service.ts` (GameService) over an
explicit store.  The Prisma store (models `GameSession`, `Player`, `User`
from `prisma/schema.prisma`) is modelled as lists of records; every
service method becomes a Lean function threading the store explicitly.
Timestamps are milliseconds since epoch as `Nat`; every subtraction in
the source is wrapped in `Math.max(.., 0)`, which truncated `Nat`
subtraction implements faithfully.  `Math.random` draws and freshly
generated uuids become explicit parameters of the transitions.
-/

namespace GamingApp

/-- Model of the Prisma `GameSession` record (schema.prisma).
Ids and tokens are opaque: modelled as `Nat`. -/
structure Session where
  id : Nat
  sessionToken : Nat
  winningNumber : Option Nat
  isActive : Bool
  startedAt : Nat
  endedAt : Option Nat
  duration : Nat
deriving Repr, DecidableEq

/-- Model of the Prisma `Player` record (the spec calls it a Guess):
`selectedNumber` is an `Int` because the source stores the sentinel -1
for "joined but not yet guessed"; `isWinner` is the nullable Boolean. -/
structure Player where
  id : Nat
  userId : Nat
  gameId : Nat
  selectedNumber : Int
  isWinner : Option Bool
deriving Repr, DecidableEq

/-- Model of the Prisma `User` record, restricted to the fields the game
logic touches (`username`, cumulative `wins` and `losses`). -/
structure User where
  id : Nat
  username : String
  wins : Nat
  losses : Nat
deriving Repr, DecidableEq

/-- The persistent store: the three tables the game service touches. -/
structure Store where
  sessions : List Session
  players : List Player
  users : List User
deriving Repr, DecidableEq

/-- The empty database the system starts from. -/
def emptyStore : Store := { sessions := [], players := [], users := [] }

/-- `sessionDuration = 30` seconds (game.service.ts line 19). -/
def sessionDuration : Nat := 30

/-- `cooldownPeriod = 10` seconds (game.service.ts line 20). -/
def cooldownPeriod : Nat := 10

/-- `cooldownPeriod * 1000` milliseconds, as used by the source. -/
def cooldownMs : Nat := cooldownPeriod * 1000

/-- Ceiling division on `Nat`, the `Math.ceil(a / b)` of the source for
non-negative integer `a` (the negative case is always clamped by the
surrounding `Math.max(.., 0)`, which `Nat` subtraction already applies). -/
def cdiv (a b : Nat) : Nat := (a + b - 1) / b

/-- `findFirst` with an `orderBy: desc` clause: return the element of the
list whose key is maximal (earlier elements win ties). -/
def pickMaxBy (key : Session → Nat) : List Session → Option Session
  | [] => none
  | x :: xs =>
    match pickMaxBy key xs with
    | none => some x
    | some y => if key y > key x then some y else some x

/-- `prisma.gameSession.findFirst({ where: { isActive: true }, orderBy: { startedAt: 'desc' } })`. -/
def findActiveSession (s : Store) : Option Session :=
  pickMaxBy (fun t => t.startedAt) (s.sessions.filter (fun t => t.isActive))

/-- `prisma.gameSession.findFirst({ where: { isActive: false }, orderBy: { endedAt: 'desc' } })`.
Every reachable inactive session has `endedAt` set, so the key defaults
`none` to 0 without loss of fidelity. -/
def findLastEndedSession (s : Store) : Option Session :=
  pickMaxBy (fun t => (t.endedAt).getD 0) (s.sessions.filter (fun t => !t.isActive))

/-- `prisma.gameSession.findFirst({ where: { id } })` / `findUnique`. -/
def findSession (s : Store) (gid : Nat) : Option Session :=
  s.sessions.find? (fun t => t.id == gid)

/-- `prisma.player.findFirst({ where: { userId, gameId } })`. -/
def findPlayerIn (s : Store) (uid gid : Nat) : Option Player :=
  s.players.find? (fun p => p.userId == uid && p.gameId == gid)

/-- Errors thrown by the service: `BadRequestException` and
`NotFoundException`, with the message of the source. -/
inductive GameError where
  | badRequest : String → GameError
  | notFound : String → GameError
deriving Repr, DecidableEq

/-- `endGameSession` (game.service.ts lines 131-159): an unconditional
`prisma.gameSession.update({ where: { id: sessionId }, data: { isActive:
false, winningNumber, endedAt } })`.  The random draw and the wall clock
are parameters.  A missing id makes Prisma throw (P2025): the store is
unchanged in that case. -/
def endGameSession (sid draw now : Nat) (s : Store) : Store :=
  match s.sessions.find? (fun t => t.id == sid) with
  | none => s
  | some _ =>
    { s with
      sessions := s.sessions.map (fun t =>
        if t.id = sid then
          { t with isActive := false, winningNumber := some draw, endedAt := some now }
        else t) }

/-- The fresh session record created by the scheduler (lines 101-108):
`isActive: true`, `startedAt: new Date()`, `duration: sessionDuration`,
a fresh `sessionToken`. -/
def mkSession (now nid ntok : Nat) : Session :=
  { id := nid, sessionToken := ntok, winningNumber := none, isActive := true,
    startedAt := now, endedAt := none, duration := sessionDuration }

/-- The `prisma.$transaction` of `manageGameSession` (lines 90-109):
re-check that no active session exists; if one does, return it with the
store unchanged, otherwise create the new session. -/
def openSessionTxn (now nid ntok : Nat) (s : Store) : Session × Store :=
  match findActiveSession s with
  | some doubleCheck => (doubleCheck, s)
  | none =>
    let ns := mkSession now nid ntok
    (ns, { s with sessions := s.sessions ++ [ns] })

/-- Cooldown computation of the tick (lines 63-76):
`max(cooldownPeriod * 1000 - (now - lastSession.endedAt), 0)`. -/
def cooldownRemainingMs (now : Nat) (s : Store) : Nat :=
  match findLastEndedSession s with
  | some last =>
    match last.endedAt with
    | some e => cooldownMs - (now - e)
    | none => 0
  | none => 0

/-- Second half of the tick (lines 78-109): return during cooldown,
otherwise run the creation transaction. -/
def tryStartSession (now nid ntok : Nat) (s : Store) : Store :=
  if cooldownRemainingMs now s > 0 then s
  else (openSessionTxn now nid ntok s).2

/-- `manageGameSession` (lines 36-129), the scheduler tick: if an active
session exists and is past `startedAt + duration * 1000`, end it (then
fall through to the cooldown check); if it is not yet past, return;
with no active session, go to cooldown check / creation.  `draw` is the
random winning number, `nid`/`ntok` the fresh uuid values. -/
def manageGameSession (now draw nid ntok : Nat) (s : Store) : Store :=
  match findActiveSession s with
  | some act =>
    if act.startedAt + act.duration * 1000 ≤ now then
      tryStartSession now nid ntok (endGameSession act.id draw now s)
    else s
  | none => tryStartSession now nid ntok s

/-- The status payload of `getActiveSession` (lines 162-215). -/
structure StatusData where
  session : Option Session
  timeLeftInSeconds : Option Nat
  nextSessionIn : Option Nat
  status : String
deriving Repr, DecidableEq

/-- The `nextSessionIn` computation shared by the waiting branches
(lines 190-204, 345-359): defaults to `cooldownPeriod`, else
`max(ceil((cooldownPeriod * 1000 - (now - endedAt)) / 1000), 0)`. -/
def nextSessionInOf (now : Nat) (s : Store) : Nat :=
  match findLastEndedSession s with
  | some last =>
    match last.endedAt with
    | some e => cdiv (cooldownMs - (now - e)) 1000
    | none => cooldownPeriod
  | none => cooldownPeriod

/-- The "no active session" response of `getActiveSession` (lines 206-214). -/
def waitingData (now : Nat) (s : Store) : StatusData :=
  { session := none, timeLeftInSeconds := none,
    nextSessionIn := some (nextSessionInOf now s), status := "waiting" }

/-- `getActiveSession` (lines 162-215): if an active session exists with
`timeLeftInSeconds = max(floor((end - now) / 1000), 0) > 0` report it as
active, otherwise fall through to the waiting response.  Performs only
reads: the returned store is the input store. -/
def getActiveSession (now : Nat) (s : Store) : StatusData × Store :=
  match findActiveSession s with
  | some act =>
    let sessionEndTime := act.startedAt + act.duration * 1000
    let timeLeftInSeconds := (sessionEndTime - now) / 1000
    if timeLeftInSeconds > 0 then
      ({ session := some act, timeLeftInSeconds := some timeLeftInSeconds,
         nextSessionIn := none, status := "active" }, s)
    else (waitingData now s, s)
  | none => (waitingData now s, s)

/-- `joinGameSession` (lines 218-269): requires an active session with
the given id; rejects a repeated join; otherwise creates the Player row
with the sentinel selection -1.  `pid` is the fresh row id. -/
def joinGameSession (uid gid pid : Nat) (s : Store) : Except GameError String × Store :=
  match s.sessions.find? (fun t => t.id == gid && t.isActive) with
  | none => (Except.error (GameError.badRequest "Game session is not active or does not exist."), s)
  | some sess =>
    match findPlayerIn s uid sess.id with
    | some existingPlayer =>
      if existingPlayer.selectedNumber ≠ -1 then
        (Except.error (GameError.badRequest "You have already played in this session."), s)
      else
        (Except.error (GameError.badRequest "You have already joined this session."), s)
    | none =>
      (Except.ok "Successfully joined game session.",
       { s with players := s.players ++
          [{ id := pid, userId := uid, gameId := sess.id, selectedNumber := -1, isWinner := none }] })

/-- `submitNumber` (lines 272-312): range check on [1,10] first, then
session existence (no `isActive` condition in the query), then the join
record, then the sentinel check; only then write the selection. -/
def submitNumber (uid gid : Nat) (selectedNumber : Int) (s : Store) :
    Except GameError String × Store :=
  if selectedNumber < 1 ∨ 10 < selectedNumber then
    (Except.error (GameError.badRequest "Invalid number. Choose between 1 and 10."), s)
  else
    match findSession s gid with
    | none => (Except.error (GameError.badRequest "Game session is not active or does not exist."), s)
    | some sess =>
      match findPlayerIn s uid sess.id with
      | none => (Except.error (GameError.badRequest "You have not joined this session."), s)
      | some player =>
        if player.selectedNumber ≠ -1 then
          (Except.error (GameError.badRequest "You have already selected a number."), s)
        else
          (Except.ok "Number submitted successfully.",
           { s with players := s.players.map (fun q =>
              if q.id = player.id then { q with selectedNumber := selectedNumber } else q) })

/-- Row action of `player.updateMany({ where: { gameId, selectedNumber:
winningNumber }, data: { isWinner: true } })` (lines 526-529). -/
def markWin (gid w : Nat) (p : Player) : Player :=
  if p.gameId = gid ∧ p.selectedNumber = (w : Int) then { p with isWinner := some true } else p

/-- Row action of `player.updateMany({ where: { gameId, selectedNumber:
{ not: winningNumber } }, data: { isWinner: false } })` (lines 532-535). -/
def markLose (gid w : Nat) (p : Player) : Player :=
  if p.gameId = gid ∧ p.selectedNumber ≠ (w : Int) then { p with isWinner := some false } else p

/-- Both batch updates in sequence, as applied to one row. -/
def settleMark (gid w : Nat) (p : Player) : Player := markLose gid w (markWin gid w p)

/-- `getWinners` (lines 559-564): userIds of the session rows marked winners. -/
def winnerIdsOf (gid : Nat) (ps : List Player) : List Nat :=
  (ps.filter (fun p => p.gameId == gid && p.isWinner == some true)).map (fun p => p.userId)

/-- `getLosers` (lines 566-571): userIds of the session rows marked losers. -/
def loserIdsOf (gid : Nat) (ps : List Player) : List Nat :=
  (ps.filter (fun p => p.gameId == gid && p.isWinner == some false)).map (fun p => p.userId)

/-- Row action of `user.updateMany({ where: { id: { in: winnerIds } },
data: { wins: { increment: 1 } } })` (lines 539-546). -/
def incWins (ids : List Nat) (v : User) : User :=
  if v.id ∈ ids then { v with wins := v.wins + 1 } else v

/-- Row action of `user.updateMany({ where: { id: { in: loserIds } },
data: { losses: { increment: 1 } } })` (lines 547-554). -/
def incLosses (ids : List Nat) (v : User) : User :=
  if v.id ∈ ids then { v with losses := v.losses + 1 } else v

/-- `updatePlayerStats` (lines 524-556): mark winners (`selectedNumber =
winningNumber`) with `isWinner := true`, mark the rest (`selectedNumber
!= winningNumber`) with `isWinner := false`, then increment `wins` for
every user among the winners of the session and `losses` for every user
among its losers.  There is no check whether the session was already
settled. -/
def updatePlayerStats (gid w : Nat) (s : Store) : Store :=
  let ps2 := (s.players.map (markWin gid w)).map (markLose gid w)
  let winnerIds := winnerIdsOf gid ps2
  let loserIds := loserIdsOf gid ps2
  let us2 := (s.users.map (incWins winnerIds)).map (incLosses loserIds)
  { s with players := ps2, users := us2 }

/-- The result snapshot of `getGameResult` (interface.ts `GameResultResponse`). -/
structure GameResult where
  gameSessionId : Nat
  winningNumber : Nat
  totalPlayers : Nat
  currentPlayer : Option Int
  totalWins : Nat
  winners : List (Option String)
  nextSessionIn : Nat
deriving Repr, DecidableEq

/-- `getGameResult` (lines 315-377): `NotFoundException` when the id is
unknown; `BadRequestException` when `!session.winningNumber` (the JS
truthiness test, which also fires on a stored 0); otherwise compute the
counts on the pre-settlement store, compute `nextSessionIn`, run
`updatePlayerStats` and return the snapshot. -/
def getGameResult (gid now : Nat) (s : Store) : Except GameError GameResult × Store :=
  match findSession s gid with
  | none => (Except.error (GameError.notFound "Game session not found."), s)
  | some sess =>
    match sess.winningNumber with
    | none =>
      (Except.error (GameError.badRequest "Game session not ended and cannot determine winners."), s)
    | some w =>
      if w = 0 then
        (Except.error (GameError.badRequest "Game session not ended and cannot determine winners."), s)
      else
        let totalPlayers := (s.players.filter (fun p => p.gameId == sess.id)).length
        let winRows := s.players.filter (fun p => p.gameId == sess.id && p.selectedNumber == (w : Int))
        let totalWins := winRows.length
        let winners := winRows.map (fun p =>
          (s.users.find? (fun v => v.id == p.userId)).map (fun v => v.username))
        let nsi := nextSessionInOf now s
        let s1 := updatePlayerStats gid w s
        (Except.ok
          { gameSessionId := gid, winningNumber := w, totalPlayers := totalPlayers,
            currentPlayer := none, totalWins := totalWins, winners := winners,
            nextSessionIn := nsi }, s1)

/-- Iterated invocation of the settlement stats step. -/
def iterSettle (gid w : Nat) : Nat → Store → Store
  | 0, s => s
  | n + 1, s => iterSettle gid w n (updatePlayerStats gid w s)

/-- Number of sessions currently flagged active. -/
def activeCount (s : Store) : Nat :=
  s.sessions.countP (fun t => t.isActive)

/-- Cumulative `wins` held by the users with the given id (in reachable
stores the id is unique, so this is that user's counter). -/
def winsOf (us : List User) (uid : Nat) : Nat :=
  ((us.filter (fun v => v.id == uid)).map (fun v => v.wins)).sum

/-- Cumulative `losses` held by the users with the given id. -/
def lossesOf (us : List User) (uid : Nat) : Nat :=
  ((us.filter (fun v => v.id == uid)).map (fun v => v.losses)).sum

/-- `winsOf` on a store. -/
def sumWins (s : Store) (uid : Nat) : Nat := winsOf s.users uid

/-- `lossesOf` on a store. -/
def sumLosses (s : Store) (uid : Nat) : Nat := lossesOf s.users uid

/-- One observable transition of the system: a scheduler tick, the
deferred end-timer callback, or one of the request handlers.  Random
draws are constrained to the range of `Math.floor(Math.random() * 10) + 1`. -/
inductive Step : Store → Store → Prop where
  | tick (s : Store) (now draw nid ntok : Nat) (h1 : 1 ≤ draw) (h10 : draw ≤ 10) :
      Step s (manageGameSession now draw nid ntok s)
  | timerEnd (s : Store) (sid draw now : Nat) (h1 : 1 ≤ draw) (h10 : draw ≤ 10) :
      Step s (endGameSession sid draw now s)
  | join (s : Store) (uid gid pid : Nat) : Step s (joinGameSession uid gid pid s).2
  | submit (s : Store) (uid gid : Nat) (n : Int) : Step s (submitNumber uid gid n s).2
  | result (s : Store) (gid now : Nat) : Step s (getGameResult gid now s).2
  | status (s : Store) (now : Nat) : Step s (getActiveSession now s).2

/-- Stores reachable from the empty database through the transitions. -/
inductive Reachable : Store → Prop where
  | init : Reachable emptyStore
  | step {s t : Store} : Reachable s → Step s t → Reachable t

/-! ## Concrete stores used to evaluate the theorems -/

/-- An ended session (winning number 5) with a single winning player. -/
def cx1 : Store :=
  { sessions := [{ id := 0, sessionToken := 0, winningNumber := some 5, isActive := false,
                   startedAt := 0, endedAt := some 30000, duration := 30 }],
    players := [{ id := 0, userId := 0, gameId := 0, selectedNumber := 5, isWinner := none }],
    users := [{ id := 0, username := "alice", wins := 0, losses := 0 }] }

/-- An active session that started at time 0 with duration 30 s. -/
def cx7session : Session :=
  { id := 0, sessionToken := 0, winningNumber := none, isActive := true,
    startedAt := 0, endedAt := none, duration := 30 }

/-- A store whose only session is the active `cx7session`. -/
def cx7 : Store := { sessions := [cx7session], players := [], users := [] }

/-- A store with one active session, used to evaluate the idempotent open. -/
def cxActive : Store := { sessions := [cx7session], players := [], users := [] }

/-- An ended session whose `endedAt` is 50000 ms. -/
def cx6last : Session :=
  { id := 0, sessionToken := 0, winningNumber := some 4, isActive := false,
    startedAt := 0, endedAt := some 50000, duration := 30 }

/-- A store whose only session is the ended `cx6last`. -/
def cx6 : Store := { sessions := [cx6last], players := [], users := [] }

/-- The ended session of `cxEnded`. -/
def cxEndedSession : Session :=
  { id := 0, sessionToken := 0, winningNumber := some 4, isActive := false,
    startedAt := 0, endedAt := some 50000, duration := 30 }

/-- The sentinel-selection join record of `cxEnded`. -/
def cxEndedPlayer : Player :=
  { id := 0, userId := 7, gameId := 0, selectedNumber := -1, isWinner := none }

/-- An ended session together with a joined player who never guessed. -/
def cxEnded : Store :=
  { sessions := [cxEndedSession], players := [cxEndedPlayer], users := [] }

/-- An ended session (winning number 4) with one winning player (user 1)
and one player who never guessed (user 2). -/
def cx8 : Store :=
  { sessions := [{ id := 0, sessionToken := 0, winningNumber := some 4, isActive := false,
                   startedAt := 0, endedAt := some 30000, duration := 30 }],
    players := [{ id := 0, userId := 1, gameId := 0, selectedNumber := 4, isWinner := none },
                { id := 1, userId := 2, gameId := 0, selectedNumber := -1, isWinner := none }],
    users := [{ id := 1, username := "bob", wins := 0, losses := 0 },
              { id := 2, username := "carol", wins := 2, losses := 3 }] }

/-! ## Basic lemmas about the store queries -/

theorem pickMaxBy_eq_none {k : Session → Nat} {l : List Session} :
    pickMaxBy k l = none ↔ l = [] := by
  cases l with
  | nil => simp [pickMaxBy]
  | cons x xs =>
    constructor
    · intro h
      exfalso
      simp only [pickMaxBy] at h
      cases h2 : pickMaxBy k xs with
      | none => simp only [h2] at h; exact Option.noConfusion h
      | some y =>
        simp only [h2] at h
        split at h <;> exact Option.noConfusion h
    · intro h
      exact absurd h (List.cons_ne_nil x xs)

theorem pickMaxBy_mem {k : Session → Nat} {l : List Session} {y : Session}
    (h : pickMaxBy k l = some y) : y ∈ l := by
  induction l generalizing y with
  | nil => exact absurd h (by simp [pickMaxBy])
  | cons x xs ih =>
    simp only [pickMaxBy] at h
    cases h2 : pickMaxBy k xs with
    | none =>
      simp only [h2] at h
      cases h
      exact List.mem_cons_self _ _
    | some z =>
      simp only [h2] at h
      split at h
      · cases h; exact List.mem_cons_of_mem _ (ih h2)
      · cases h; exact List.mem_cons_self _ _

theorem findActiveSession_some {s : Store} {act : Session}
    (h : findActiveSession s = some act) : act ∈ s.sessions ∧ act.isActive = true := by
  have hmem := pickMaxBy_mem h
  have := List.mem_filter.mp hmem
  exact ⟨this.1, by simpa using this.2⟩

theorem findActiveSession_none {s : Store} :
    findActiveSession s = none ↔ s.sessions.filter (fun t => t.isActive) = [] := by
  unfold findActiveSession
  exact pickMaxBy_eq_none

theorem countP_map_le {α : Type} (p : α → Bool) (f : α → α) (l : List α)
    (h : ∀ x ∈ l, p (f x) = true → p x = true) :
    (l.map f).countP p ≤ l.countP p := by
  induction l with
  | nil => simp
  | cons x xs ih =>
    simp only [List.map_cons, List.countP_cons]
    have hx := h x (List.mem_cons_self _ _)
    have hxs := ih (fun y hy => h y (List.mem_cons_of_mem _ hy))
    by_cases hpfx : p (f x) = true
    · rw [if_pos hpfx, if_pos (hx hpfx)]; omega
    · rw [if_neg hpfx]
      split <;> omega

theorem activeCount_of_findActive_none {s : Store}
    (h : findActiveSession s = none) : activeCount s = 0 := by
  unfold activeCount
  rw [List.countP_eq_length_filter, findActiveSession_none.mp h]
  rfl

/-! ## Frame lemmas: which tables each operation can touch -/

theorem endGameSession_sessions_le (sid draw now : Nat) (s : Store) :
    activeCount (endGameSession sid draw now s) ≤ activeCount s := by
  unfold endGameSession
  cases h : s.sessions.find? (fun t => t.id == sid) with
  | none => exact Nat.le_refl _
  | some t0 =>
    unfold activeCount
    apply countP_map_le
    intro x _ hx
    by_cases hid : x.id = sid
    · rw [if_pos hid] at hx; simp at hx
    · rwa [if_neg hid] at hx

theorem endGameSession_mem_of_ne {s : Store} {sess : Session} (sid draw now : Nat)
    (hmem : sess ∈ s.sessions) (hne : sess.id ≠ sid) :
    sess ∈ (endGameSession sid draw now s).sessions := by
  unfold endGameSession
  cases h : s.sessions.find? (fun t => t.id == sid) with
  | none => exact hmem
  | some t0 =>
    have : sess = (if sess.id = sid then
        { sess with isActive := false, winningNumber := some draw, endedAt := some now }
      else sess) := by rw [if_neg hne]
    rw [this]
    exact List.mem_map_of_mem _ hmem

theorem getActiveSession_store (now : Nat) (s : Store) :
    (getActiveSession now s).2 = s := by
  unfold getActiveSession
  cases findActiveSession s with
  | none => rfl
  | some act => simp only; split <;> rfl

theorem joinGameSession_sessions (uid gid pid : Nat) (s : Store) :
    ((joinGameSession uid gid pid s).2).sessions = s.sessions := by
  unfold joinGameSession
  split
  · rfl
  · split
    · split <;> rfl
    · rfl

theorem submitNumber_sessions (uid gid : Nat) (n : Int) (s : Store) :
    ((submitNumber uid gid n s).2).sessions = s.sessions := by
  unfold submitNumber
  split
  · rfl
  · split
    · rfl
    · split
      · rfl
      · split <;> rfl

theorem updatePlayerStats_sessions (gid w : Nat) (s : Store) :
    (updatePlayerStats gid w s).sessions = s.sessions := rfl

theorem getGameResult_sessions (gid now : Nat) (s : Store) :
    ((getGameResult gid now s).2).sessions = s.sessions := by
  unfold getGameResult
  split
  · rfl
  · split
    · rfl
    · split <;> rfl

/-! ## The single-active-session invariant -/

theorem openSessionTxn_of_active {s : Store} {act : Session} (now nid ntok : Nat)
    (h : findActiveSession s = some act) :
    openSessionTxn now nid ntok s = (act, s) := by
  unfold openSessionTxn
  rw [h]

theorem openSessionTxn_of_none {s : Store} (now nid ntok : Nat)
    (h : findActiveSession s = none) :
    (openSessionTxn now nid ntok s).1 = mkSession now nid ntok ∧
      (openSessionTxn now nid ntok s).2 =
        { s with sessions := s.sessions ++ [mkSession now nid ntok] } := by
  unfold openSessionTxn
  rw [h]
  exact ⟨rfl, rfl⟩

theorem findActiveSession_after_create (s : Store) (now nid ntok : Nat)
    (h : findActiveSession s = none) :
    findActiveSession { s with sessions := s.sessions ++ [mkSession now nid ntok] } =
      some (mkSession now nid ntok) := by
  unfold findActiveSession at *
  have hfil : s.sessions.filter (fun t => t.isActive) = [] := pickMaxBy_eq_none.mp h
  simp only [List.filter_append, hfil, List.nil_append]
  rfl

theorem activeCount_tryStartSession {s : Store} (now nid ntok : Nat)
    (h : activeCount s ≤ 1) :
    activeCount (tryStartSession now nid ntok s) ≤ 1 := by
  unfold tryStartSession
  split
  · exact h
  · cases hfa : findActiveSession s with
    | some act => rw [openSessionTxn_of_active now nid ntok hfa]; exact h
    | none =>
      rw [(openSessionTxn_of_none now nid ntok hfa).2]
      unfold activeCount at *
      simp only [List.countP_append]
      rw [List.countP_eq_length_filter, pickMaxBy_eq_none.mp hfa]
      simp [mkSession, List.countP_cons]

theorem activeCount_manage {s : Store} (now draw nid ntok : Nat)
    (h : activeCount s ≤ 1) :
    activeCount (manageGameSession now draw nid ntok s) ≤ 1 := by
  unfold manageGameSession
  cases hfa : findActiveSession s with
  | some act =>
    simp only
    split
    · exact activeCount_tryStartSession now nid ntok
        (Nat.le_trans (endGameSession_sessions_le act.id draw now s) h)
    · exact h
  | none => exact activeCount_tryStartSession now nid ntok h

theorem activeCount_eq_of_sessions_eq {s t : Store}
    (h : t.sessions = s.sessions) : activeCount t = activeCount s := by
  unfold activeCount
  rw [h]

/-- The at-most-one-active-session invariant holds in every reachable store. -/
theorem reachable_activeCount (s : Store) (h : Reachable s) : activeCount s ≤ 1 := by
  induction h with
  | init => decide
  | step hr hstep ih =>
    cases hstep with
    | tick now draw nid ntok h1 h10 => exact activeCount_manage now draw nid ntok ih
    | timerEnd sid draw now h1 h10 =>
      exact Nat.le_trans (endGameSession_sessions_le sid draw now _) ih
    | join uid gid pid =>
      rw [activeCount_eq_of_sessions_eq (joinGameSession_sessions uid gid pid _)]; exact ih
    | submit uid gid n =>
      rw [activeCount_eq_of_sessions_eq (submitNumber_sessions uid gid n _)]; exact ih
    | result gid now =>
      rw [activeCount_eq_of_sessions_eq (getGameResult_sessions gid now _)]; exact ih
    | status now =>
      rw [getActiveSession_store now _]; exact ih

/-! ## The tick never touches an inactive session -/

theorem tryStartSession_mem {s : Store} {sess : Session} (now nid ntok : Nat)
    (hmem : sess ∈ s.sessions) :
    sess ∈ (tryStartSession now nid ntok s).sessions := by
  unfold tryStartSession
  split
  · exact hmem
  · cases hfa : findActiveSession s with
    | some act => rw [openSessionTxn_of_active now nid ntok hfa]; exact hmem
    | none =>
      rw [(openSessionTxn_of_none now nid ntok hfa).2]
      exact List.mem_append_left _ hmem

theorem manageGameSession_mem_inactive {s : Store} {sess : Session}
    (now draw nid ntok : Nat)
    (hmem : sess ∈ s.sessions) (hina : sess.isActive = false)
    (huniq : ∀ t ∈ s.sessions, t.id = sess.id → t = sess) :
    sess ∈ (manageGameSession now draw nid ntok s).sessions := by
  unfold manageGameSession
  cases hfa : findActiveSession s with
  | some act =>
    have hact := findActiveSession_some hfa
    simp only
    split
    · apply tryStartSession_mem
      apply endGameSession_mem_of_ne _ draw now hmem
      intro hid
      have : act = sess := huniq act hact.1 (hid ▸ rfl)
      rw [this] at hact
      rw [hina] at hact
      exact Bool.noConfusion hact.2
    · exact hmem
  | none => exact tryStartSession_mem now nid ntok hmem

/-! ## Settlement: how `updatePlayerStats` rewrites the rows -/

@[simp] theorem settleMark_gameId (gid w : Nat) (p : Player) :
    (settleMark gid w p).gameId = p.gameId := by
  unfold settleMark markWin markLose
  split <;> split <;> rfl

@[simp] theorem settleMark_userId (gid w : Nat) (p : Player) :
    (settleMark gid w p).userId = p.userId := by
  unfold settleMark markWin markLose
  split <;> split <;> rfl

@[simp] theorem settleMark_selectedNumber (gid w : Nat) (p : Player) :
    (settleMark gid w p).selectedNumber = p.selectedNumber := by
  unfold settleMark markWin markLose
  split <;> split <;> rfl

theorem settleMark_of_win {p : Player} (gid w : Nat)
    (hg : p.gameId = gid) (hs : p.selectedNumber = (w : Int)) :
    settleMark gid w p = { p with isWinner := some true } := by
  have h1 : markWin gid w p = { p with isWinner := some true } := by
    unfold markWin
    rw [if_pos ⟨hg, hs⟩]
  unfold settleMark
  rw [h1]
  unfold markLose
  rw [if_neg]
  intro hc
  exact hc.2 hs

theorem settleMark_of_lose {p : Player} (gid w : Nat)
    (hg : p.gameId = gid) (hs : p.selectedNumber ≠ (w : Int)) :
    settleMark gid w p = { p with isWinner := some false } := by
  have h1 : markWin gid w p = p := by
    unfold markWin
    rw [if_neg]
    intro hc
    exact hs hc.2
  unfold settleMark
  rw [h1]
  unfold markLose
  rw [if_pos ⟨hg, hs⟩]

theorem settleMark_winner_imp {p : Player} {gid w : Nat}
    (hg : p.gameId = gid) (hw : (settleMark gid w p).isWinner = some true) :
    p.selectedNumber = (w : Int) := by
  by_contra hs
  rw [settleMark_of_lose gid w hg hs] at hw
  exact Bool.noConfusion (Option.some.inj hw)

theorem settleMark_loser_imp {p : Player} {gid w : Nat}
    (hg : p.gameId = gid) (hw : (settleMark gid w p).isWinner = some false) :
    p.selectedNumber ≠ (w : Int) := by
  intro hs
  rw [settleMark_of_win gid w hg hs] at hw
  exact Bool.noConfusion (Option.some.inj hw)

theorem updatePlayerStats_players (gid w : Nat) (s : Store) :
    (updatePlayerStats gid w s).players = s.players.map (settleMark gid w) := by
  unfold updatePlayerStats
  simp only [List.map_map]
  rfl

theorem mem_winnerIds_iff (gid w uid : Nat) (s : Store) :
    uid ∈ winnerIdsOf gid (s.players.map (settleMark gid w)) ↔
      ∃ p ∈ s.players, p.gameId = gid ∧ p.selectedNumber = (w : Int) ∧ p.userId = uid := by
  unfold winnerIdsOf
  simp only [List.mem_map, List.mem_filter, Bool.and_eq_true, beq_iff_eq]
  constructor
  · rintro ⟨q, ⟨⟨p, hp, rfl⟩, hg, hwin⟩, huid⟩
    rw [settleMark_gameId] at hg
    rw [settleMark_userId] at huid
    exact ⟨p, hp, hg, settleMark_winner_imp hg hwin, huid⟩
  · rintro ⟨p, hp, hg, hs, huid⟩
    refine ⟨settleMark gid w p, ⟨⟨p, hp, rfl⟩, ?_, ?_⟩, ?_⟩
    · rwa [settleMark_gameId]
    · rw [settleMark_of_win gid w hg hs]
    · rwa [settleMark_userId]

theorem mem_loserIds_iff (gid w uid : Nat) (s : Store) :
    uid ∈ loserIdsOf gid (s.players.map (settleMark gid w)) ↔
      ∃ p ∈ s.players, p.gameId = gid ∧ p.selectedNumber ≠ (w : Int) ∧ p.userId = uid := by
  unfold loserIdsOf
  simp only [List.mem_map, List.mem_filter, Bool.and_eq_true, beq_iff_eq]
  constructor
  · rintro ⟨q, ⟨⟨p, hp, rfl⟩, hg, hlose⟩, huid⟩
    rw [settleMark_gameId] at hg
    rw [settleMark_userId] at huid
    exact ⟨p, hp, hg, settleMark_loser_imp hg hlose, huid⟩
  · rintro ⟨p, hp, hg, hs, huid⟩
    refine ⟨settleMark gid w p, ⟨⟨p, hp, rfl⟩, ?_, ?_⟩, ?_⟩
    · rwa [settleMark_gameId]
    · rw [settleMark_of_lose gid w hg hs]
    · rwa [settleMark_userId]

/-! ## Settlement: how `updatePlayerStats` rewrites the user counters -/

@[simp] theorem incWins_id (ids : List Nat) (v : User) : (incWins ids v).id = v.id := by
  unfold incWins; split <;> rfl

@[simp] theorem incWins_losses (ids : List Nat) (v : User) :
    (incWins ids v).losses = v.losses := by
  unfold incWins; split <;> rfl

theorem incWins_wins (ids : List Nat) (v : User) :
    (incWins ids v).wins = v.wins + (if v.id ∈ ids then 1 else 0) := by
  unfold incWins; split <;> simp

theorem incLosses_losses (ids : List Nat) (v : User) :
    (incLosses ids v).losses = v.losses + (if v.id ∈ ids then 1 else 0) := by
  unfold incLosses; split <;> simp

@[simp] theorem incLosses_id (ids : List Nat) (v : User) : (incLosses ids v).id = v.id := by
  unfold incLosses; split <;> rfl

@[simp] theorem incLosses_wins (ids : List Nat) (v : User) :
    (incLosses ids v).wins = v.wins := by
  unfold incLosses; split <;> rfl

theorem winsOf_cons (v : User) (vs : List User) (uid : Nat) :
    winsOf (v :: vs) uid = (if v.id = uid then v.wins else 0) + winsOf vs uid := by
  unfold winsOf
  by_cases h : v.id = uid <;> simp [List.filter_cons, h]

theorem lossesOf_cons (v : User) (vs : List User) (uid : Nat) :
    lossesOf (v :: vs) uid = (if v.id = uid then v.losses else 0) + lossesOf vs uid := by
  unfold lossesOf
  by_cases h : v.id = uid <;> simp [List.filter_cons, h]

theorem winsOf_map_incWins (us : List User) (ids : List Nat) (uid : Nat) :
    winsOf (us.map (incWins ids)) uid =
      winsOf us uid + (if uid ∈ ids then us.countP (fun v => v.id == uid) else 0) := by
  induction us with
  | nil => simp [winsOf]
  | cons v vs ih =>
    rw [List.map_cons, winsOf_cons, winsOf_cons, ih, List.countP_cons]
    by_cases hid : v.id = uid
    · by_cases hin : uid ∈ ids
      · have hvin : v.id ∈ ids := by rw [hid]; exact hin
        simp [incWins_wins, hid, hin, hvin]
        try omega
      · have hvin : v.id ∉ ids := by rw [hid]; exact hin
        simp [incWins_wins, hid, hin, hvin]
        try omega
    · by_cases hin : uid ∈ ids <;>
        · simp [incWins_wins, hid, hin]
          try omega

theorem winsOf_map_incLosses (us : List User) (ids : List Nat) (uid : Nat) :
    winsOf (us.map (incLosses ids)) uid = winsOf us uid := by
  induction us with
  | nil => rfl
  | cons v vs ih =>
    rw [List.map_cons, winsOf_cons, winsOf_cons, ih]
    simp only [incLosses_id, incLosses_wins]

theorem lossesOf_map_incLosses (us : List User) (ids : List Nat) (uid : Nat) :
    lossesOf (us.map (incLosses ids)) uid =
      lossesOf us uid + (if uid ∈ ids then us.countP (fun v => v.id == uid) else 0) := by
  induction us with
  | nil => simp [lossesOf]
  | cons v vs ih =>
    rw [List.map_cons, lossesOf_cons, lossesOf_cons, ih, List.countP_cons]
    by_cases hid : v.id = uid
    · by_cases hin : uid ∈ ids
      · have hvin : v.id ∈ ids := by rw [hid]; exact hin
        simp [incLosses_losses, hid, hin, hvin]
        try omega
      · have hvin : v.id ∉ ids := by rw [hid]; exact hin
        simp [incLosses_losses, hid, hin, hvin]
        try omega
    · by_cases hin : uid ∈ ids <;>
        · simp [incLosses_losses, hid, hin]
          try omega

theorem lossesOf_map_incWins (us : List User) (ids : List Nat) (uid : Nat) :
    lossesOf (us.map (incWins ids)) uid = lossesOf us uid := by
  induction us with
  | nil => rfl
  | cons v vs ih =>
    rw [List.map_cons, lossesOf_cons, lossesOf_cons, ih]
    simp only [incWins_id, incWins_losses]

theorem countP_id_map_inc (us : List User) (wids lids : List Nat) (uid : Nat) :
    ((us.map (incWins wids)).map (incLosses lids)).countP (fun v => v.id == uid) =
      us.countP (fun v => v.id == uid) := by
  induction us with
  | nil => rfl
  | cons v vs ih =>
    simp only [List.map_cons, List.countP_cons, ih, incLosses_id, incWins_id]

theorem updatePlayerStats_users_countP (gid w uid : Nat) (s : Store) :
    (updatePlayerStats gid w s).users.countP (fun v => v.id == uid) =
      s.users.countP (fun v => v.id == uid) := by
  unfold updatePlayerStats
  exact countP_id_map_inc s.users _ _ uid

theorem countP_id_map_incWins (us : List User) (wids : List Nat) (uid : Nat) :
    (us.map (incWins wids)).countP (fun v => v.id == uid) =
      us.countP (fun v => v.id == uid) := by
  induction us with
  | nil => rfl
  | cons v vs ih => simp only [List.map_cons, List.countP_cons, ih, incWins_id]

theorem updatePlayerStats_users (gid w : Nat) (s : Store) :
    (updatePlayerStats gid w s).users =
      (s.users.map (incWins (winnerIdsOf gid (s.players.map (settleMark gid w))))).map
        (incLosses (loserIdsOf gid (s.players.map (settleMark gid w)))) := by
  unfold updatePlayerStats
  simp only [List.map_map]
  rfl

theorem sumWins_ups_of_winner {s : Store} {gid w uid : Nat}
    (hcnt : s.users.countP (fun v => v.id == uid) = 1)
    (hwin : ∃ p ∈ s.players, p.gameId = gid ∧ p.selectedNumber = (w : Int) ∧ p.userId = uid) :
    sumWins (updatePlayerStats gid w s) uid = sumWins s uid + 1 := by
  unfold sumWins
  rw [updatePlayerStats_users, winsOf_map_incLosses, winsOf_map_incWins,
    if_pos ((mem_winnerIds_iff gid w uid s).mpr hwin), hcnt]

theorem sumWins_ups_of_no_winner {s : Store} {gid w uid : Nat}
    (hno : ¬ ∃ p ∈ s.players, p.gameId = gid ∧ p.selectedNumber = (w : Int) ∧ p.userId = uid) :
    sumWins (updatePlayerStats gid w s) uid = sumWins s uid := by
  unfold sumWins
  rw [updatePlayerStats_users, winsOf_map_incLosses, winsOf_map_incWins,
    if_neg (fun hmem => hno ((mem_winnerIds_iff gid w uid s).mp hmem)), Nat.add_zero]

theorem sumLosses_ups_of_loser {s : Store} {gid w uid : Nat}
    (hcnt : s.users.countP (fun v => v.id == uid) = 1)
    (hlose : ∃ p ∈ s.players, p.gameId = gid ∧ p.selectedNumber ≠ (w : Int) ∧ p.userId = uid) :
    sumLosses (updatePlayerStats gid w s) uid = sumLosses s uid + 1 := by
  unfold sumLosses
  rw [updatePlayerStats_users, lossesOf_map_incLosses, lossesOf_map_incWins,
    countP_id_map_incWins, if_pos ((mem_loserIds_iff gid w uid s).mpr hlose), hcnt]

theorem sumLosses_ups_of_no_loser {s : Store} {gid w uid : Nat}
    (hno : ¬ ∃ p ∈ s.players, p.gameId = gid ∧ p.selectedNumber ≠ (w : Int) ∧ p.userId = uid) :
    sumLosses (updatePlayerStats gid w s) uid = sumLosses s uid := by
  unfold sumLosses
  rw [updatePlayerStats_users, lossesOf_map_incLosses, lossesOf_map_incWins,
    if_neg (fun hmem => hno ((mem_loserIds_iff gid w uid s).mp hmem)), Nat.add_zero]

theorem ups_forall_transfer {s : Store} {gid w uid : Nat} (P : Int → Prop)
    (h : ∀ p ∈ s.players, p.gameId = gid → p.userId = uid → P p.selectedNumber) :
    ∀ q ∈ (updatePlayerStats gid w s).players,
      q.gameId = gid → q.userId = uid → P q.selectedNumber := by
  rw [updatePlayerStats_players]
  intro q hq
  rw [List.mem_map] at hq
  obtain ⟨p, hp, rfl⟩ := hq
  simp only [settleMark_gameId, settleMark_userId, settleMark_selectedNumber]
  exact h p hp

theorem ups_exists_transfer {s : Store} {gid w uid : Nat}
    (h : ∃ p ∈ s.players, p.gameId = gid ∧ p.userId = uid) :
    ∃ q ∈ (updatePlayerStats gid w s).players, q.gameId = gid ∧ q.userId = uid := by
  obtain ⟨p, hp, hg, hu⟩ := h
  rw [updatePlayerStats_players]
  exact ⟨settleMark gid w p, List.mem_map_of_mem _ hp, by simpa using hg, by simpa using hu⟩

/-- Iterating the settlement stats step over a user all of whose session
rows hold the winning number adds one win per call and no loss. -/
theorem iterSettle_winner (gid w uid : Nat) :
    ∀ (N : Nat) (s : Store),
      s.users.countP (fun v => v.id == uid) = 1 →
      (∀ p ∈ s.players, p.gameId = gid → p.userId = uid → p.selectedNumber = (w : Int)) →
      (∃ p ∈ s.players, p.gameId = gid ∧ p.userId = uid) →
      sumWins (iterSettle gid w N s) uid = sumWins s uid + N ∧
      sumLosses (iterSettle gid w N s) uid = sumLosses s uid := by
  intro N
  induction N with
  | zero =>
    intro s _ _ _
    exact ⟨rfl, rfl⟩
  | succ n ih =>
    intro s hcnt hall hex
    have hwin : ∃ p ∈ s.players, p.gameId = gid ∧ p.selectedNumber = (w : Int) ∧ p.userId = uid := by
      obtain ⟨p, hp, hg, hu⟩ := hex
      exact ⟨p, hp, hg, hall p hp hg hu, hu⟩
    have hnolose : ¬ ∃ p ∈ s.players, p.gameId = gid ∧ p.selectedNumber ≠ (w : Int) ∧ p.userId = uid := by
      rintro ⟨p, hp, hg, hs, hu⟩
      exact hs (hall p hp hg hu)
    have hcnt2 : (updatePlayerStats gid w s).users.countP (fun v => v.id == uid) = 1 := by
      rw [updatePlayerStats_users_countP]; exact hcnt
    have res := ih (updatePlayerStats gid w s) hcnt2
      (ups_forall_transfer (fun x => x = (w : Int)) hall) (ups_exists_transfer hex)
    have hstep : iterSettle gid w (n + 1) s = iterSettle gid w n (updatePlayerStats gid w s) := rfl
    constructor
    · rw [hstep, res.1, sumWins_ups_of_winner hcnt hwin]
      omega
    · rw [hstep, res.2, sumLosses_ups_of_no_loser hnolose]

/-- Iterating the settlement stats step over a user none of whose session
rows hold the winning number adds one loss per call and no win. -/
theorem iterSettle_loser (gid w uid : Nat) :
    ∀ (N : Nat) (s : Store),
      s.users.countP (fun v => v.id == uid) = 1 →
      (∀ p ∈ s.players, p.gameId = gid → p.userId = uid → p.selectedNumber ≠ (w : Int)) →
      (∃ p ∈ s.players, p.gameId = gid ∧ p.userId = uid) →
      sumLosses (iterSettle gid w N s) uid = sumLosses s uid + N ∧
      sumWins (iterSettle gid w N s) uid = sumWins s uid := by
  intro N
  induction N with
  | zero =>
    intro s _ _ _
    exact ⟨rfl, rfl⟩
  | succ n ih =>
    intro s hcnt hall hex
    have hlose : ∃ p ∈ s.players, p.gameId = gid ∧ p.selectedNumber ≠ (w : Int) ∧ p.userId = uid := by
      obtain ⟨p, hp, hg, hu⟩ := hex
      exact ⟨p, hp, hg, hall p hp hg hu, hu⟩
    have hnowin : ¬ ∃ p ∈ s.players, p.gameId = gid ∧ p.selectedNumber = (w : Int) ∧ p.userId = uid := by
      rintro ⟨p, hp, hg, hs, hu⟩
      exact hall p hp hg hu hs
    have hcnt2 : (updatePlayerStats gid w s).users.countP (fun v => v.id == uid) = 1 := by
      rw [updatePlayerStats_users_countP]; exact hcnt
    have res := ih (updatePlayerStats gid w s) hcnt2
      (ups_forall_transfer (fun x => x ≠ (w : Int)) hall) (ups_exists_transfer hex)
    have hstep : iterSettle gid w (n + 1) s = iterSettle gid w n (updatePlayerStats gid w s) := rfl
    constructor
    · rw [hstep, res.1, sumLosses_ups_of_loser hcnt hlose]
      omega
    · rw [hstep, res.2, sumWins_ups_of_no_winner hnowin]

/-! ## The happy path of `submitNumber` -/

theorem submitNumber_ok {s : Store} {uid gid : Nat} {n : Int} {sess : Session} {p : Player}
    (h1 : 1 ≤ n) (h10 : n ≤ 10) (hs : findSession s gid = some sess)
    (hp : findPlayerIn s uid sess.id = some p) (hsel : p.selectedNumber = -1) :
    submitNumber uid gid n s =
      (Except.ok "Number submitted successfully.",
       { s with players := s.players.map (fun q =>
          if q.id = p.id then { q with selectedNumber := n } else q) }) := by
  unfold submitNumber
  rw [if_neg (by omega)]
  simp only [hs, hp]
  rw [if_neg (fun hc => hc hsel)]

/-! ## The claims -/

/-- C1, counterexample: settlement is not idempotent.  On a store with a
single ended session (winning number 5) and one winning player, running
the settlement path `getGameResult` twice leaves the user with 2
cumulative wins, while running it once leaves 1: the second invocation
increments the stats again, so the claimed isWinner-based guard does not
exist. -/
theorem C1_counterexample :
    sumWins ((getGameResult 0 40000 ((getGameResult 0 40000 cx1).2)).2) 0 = 2 ∧
    sumWins ((getGameResult 0 40000 cx1).2) 0 = 1 := by decide

/-- C1 (amended): the settlement stats step `updatePlayerStats` contains
no already-settled guard, so invoking it N times is not the same as
invoking it once: for a user with one user record and at least one join
record in the session, if all their rows hold the winning number their
`wins` counter grows by N (and `losses` is unchanged), and if none of
their rows hold it their `losses` counter grows by N (and `wins` is
unchanged). -/
theorem C1_settlement_not_idempotent (N gid w uid : Nat) (s : Store)
    (hcnt : s.users.countP (fun v => v.id == uid) = 1)
    (hex : ∃ p ∈ s.players, p.gameId = gid ∧ p.userId = uid) :
    ((∀ p ∈ s.players, p.gameId = gid → p.userId = uid → p.selectedNumber = (w : Int)) →
      sumWins (iterSettle gid w N s) uid = sumWins s uid + N ∧
      sumLosses (iterSettle gid w N s) uid = sumLosses s uid) ∧
    ((∀ p ∈ s.players, p.gameId = gid → p.userId = uid → p.selectedNumber ≠ (w : Int)) →
      sumLosses (iterSettle gid w N s) uid = sumLosses s uid + N ∧
      sumWins (iterSettle gid w N s) uid = sumWins s uid) :=
  ⟨fun hall => iterSettle_winner gid w uid N s hcnt hall hex,
   fun hall => iterSettle_loser gid w uid N s hcnt hall hex⟩

/-- C1, witness: the amended theorem evaluated on the concrete store:
two settlement invocations add two wins for the winning user. -/
theorem C1_settlement_not_idempotent_witness :
    sumWins (iterSettle 0 5 2 cx1) 0 = sumWins cx1 0 + 2 ∧
    sumLosses (iterSettle 0 5 2 cx1) 0 = sumLosses cx1 0 :=
  (C1_settlement_not_idempotent 2 0 5 0 cx1 (by decide)
      ⟨{ id := 0, userId := 0, gameId := 0, selectedNumber := 5, isWinner := none },
        by decide, rfl, rfl⟩).1
    (by decide)

/-- C2, counterexample: `winningNumber` is not assigned exactly once.
Starting from the empty store, a tick at time 0 opens a session; the
tick at 30000 ends it with draw 3; the deferred `setTimeout` callback
`endGameSession` then runs at 30500 with draw 7 and, because the update
is an unconditional update-by-id with no `isActive` check, overwrites
the already-assigned winning number: it changes from `some 3` to
`some 7`. -/
theorem C2_counterexample :
    ((manageGameSession 30000 3 9 9 (manageGameSession 0 5 0 0 emptyStore)).sessions.map
        (fun t => t.winningNumber) = [some 3]) ∧
    ((endGameSession 0 7 30500 (manageGameSession 30000 3 9 9
        (manageGameSession 0 5 0 0 emptyStore))).sessions.map
        (fun t => t.winningNumber) = [some 7]) := by decide

/-- C2 (amended): only the tick path is guarded: `manageGameSession`
never mutates a session that is already inactive (with distinct session
ids), so the tick cannot re-draw a winning number; the unguarded direct
`endGameSession` (the deferred-timer path) is what violates the original
claim, as the counterexample shows. -/
theorem C2_tick_preserves_ended_sessions (s : Store) (now draw nid ntok : Nat)
    (sess : Session) (hmem : sess ∈ s.sessions) (hina : sess.isActive = false)
    (huniq : ∀ t ∈ s.sessions, t.id = sess.id → t = sess) :
    sess ∈ (manageGameSession now draw nid ntok s).sessions :=
  manageGameSession_mem_inactive now draw nid ntok hmem hina huniq

/-- C2, witness: the ended session of `cx6` survives a later tick
unchanged, winning number included. -/
theorem C2_tick_preserves_ended_sessions_witness :
    cx6last ∈ (manageGameSession 70000 8 1 1 cx6).sessions :=
  C2_tick_preserves_ended_sessions cx6 70000 8 1 1 cx6last (by decide) (by decide)
    (by decide)

/-- C3: (1) every store reachable from the empty database has at most
one session with `isActive = true`; (2) the creation transaction is an
idempotent open: if an active session exists, it returns that session
and leaves the store unchanged; (3) with no active session, the open
creates exactly one session, and a second racing open returns that very
session without creating another. -/
theorem C3_single_active_session :
    (∀ s, Reachable s → activeCount s ≤ 1) ∧
    (∀ (s : Store) (now nid ntok : Nat) (act : Session),
      findActiveSession s = some act → openSessionTxn now nid ntok s = (act, s)) ∧
    (∀ (s : Store) (now nid ntok now2 nid2 ntok2 : Nat),
      findActiveSession s = none →
      (openSessionTxn now nid ntok s).2.sessions = s.sessions ++ [mkSession now nid ntok] ∧
      openSessionTxn now2 nid2 ntok2 (openSessionTxn now nid ntok s).2 =
        ((openSessionTxn now nid ntok s).1, (openSessionTxn now nid ntok s).2)) := by
  refine ⟨reachable_activeCount,
    fun s now nid ntok act h => openSessionTxn_of_active now nid ntok h, ?_⟩
  intro s now nid ntok now2 nid2 ntok2 h
  have h1 := openSessionTxn_of_none now nid ntok h
  refine ⟨by rw [h1.2], ?_⟩
  have hfa : findActiveSession (openSessionTxn now nid ntok s).2 =
      some (mkSession now nid ntok) := by
    rw [h1.2]
    exact findActiveSession_after_create s now nid ntok h
  rw [openSessionTxn_of_active now2 nid2 ntok2 hfa, h1.1]

/-- C3, witness: the invariant evaluated on a store reached by one tick,
and the idempotent open evaluated on a store with an active session. -/
theorem C3_single_active_session_witness :
    activeCount (manageGameSession 0 5 1 2 emptyStore) ≤ 1 ∧
    openSessionTxn 5000 6 7 cxActive = (cx7session, cxActive) :=
  ⟨C3_single_active_session.1 _
      (Reachable.step Reachable.init (Step.tick emptyStore 0 5 1 2 (by decide) (by decide))),
   C3_single_active_session.2.1 cxActive 5000 6 7 cx7session (by decide)⟩

/-- C4: `getGameResult` fails with the not-found error exactly when the
session id is unknown and with the precondition (bad-request) error
exactly when the session exists without a winning number, and in both
error cases returns the store unchanged (no mutation); when the session
exists with a winning number (which in every reachable store lies in
[1,10], the range of the draw — hypothesis `hwf`) it succeeds. -/
theorem C4_result_errors (s : Store) (gid now : Nat)
    (hwf : ∀ t ∈ s.sessions, ∀ w, t.winningNumber = some w → 1 ≤ w ∧ w ≤ 10) :
    (findSession s gid = none →
      getGameResult gid now s =
        (Except.error (GameError.notFound "Game session not found."), s)) ∧
    (∀ sess, findSession s gid = some sess → sess.winningNumber = none →
      getGameResult gid now s =
        (Except.error (GameError.badRequest
          "Game session not ended and cannot determine winners."), s)) ∧
    (∀ sess w, findSession s gid = some sess → sess.winningNumber = some w →
      ∃ r s2, getGameResult gid now s = (Except.ok r, s2)) := by
  refine ⟨?_, ?_, ?_⟩
  · intro h
    unfold getGameResult
    rw [h]
  · intro sess h hw
    unfold getGameResult
    simp only [h, hw]
  · intro sess w h hw
    have hmem : sess ∈ s.sessions := List.mem_of_find?_eq_some h
    have hrange := hwf sess hmem w hw
    unfold getGameResult
    simp only [h, hw]
    rw [if_neg (by omega)]
    exact ⟨_, _, rfl⟩

/-- C4, witness: the not-found case on the empty store, and the
precondition case on a store whose session is still running. -/
theorem C4_result_errors_witness :
    getGameResult 3 100 emptyStore =
      (Except.error (GameError.notFound "Game session not found."), emptyStore) ∧
    getGameResult 0 100 cx7 =
      (Except.error (GameError.badRequest
        "Game session not ended and cannot determine winners."), cx7) :=
  ⟨(C4_result_errors emptyStore 3 100 (by intro t ht; simp [emptyStore] at ht)).1 rfl,
   (C4_result_errors cx7 0 100 (by decide)).2.1 cx7session (by decide) rfl⟩

/-- C5: `submitNumber` rejects every number outside [1,10] with the
validation error and an unchanged store; a player whose stored selection
is no longer the sentinel -1 is always rejected with an unchanged store;
and a first submission by a sentinel-holding player with a number in
[1,10] succeeds, rewriting exactly that player's row to the chosen
number (sessions and users untouched, all other rows kept). -/
theorem C5_submit_guards (s : Store) (uid gid : Nat) (n : Int) :
    ((n < 1 ∨ 10 < n) →
      submitNumber uid gid n s =
        (Except.error (GameError.badRequest "Invalid number. Choose between 1 and 10."), s)) ∧
    (∀ sess p, findSession s gid = some sess → findPlayerIn s uid sess.id = some p →
      p.selectedNumber ≠ -1 → ∃ e, submitNumber uid gid n s = (Except.error e, s)) ∧
    (∀ sess p, 1 ≤ n → n ≤ 10 → findSession s gid = some sess →
      findPlayerIn s uid sess.id = some p → p.selectedNumber = -1 →
      ∃ s2, submitNumber uid gid n s = (Except.ok "Number submitted successfully.", s2) ∧
        s2.sessions = s.sessions ∧ s2.users = s.users ∧
        { p with selectedNumber := n } ∈ s2.players ∧
        ∀ q ∈ s.players, q.id ≠ p.id → q ∈ s2.players) := by
  refine ⟨?_, ?_, ?_⟩
  · intro h
    unfold submitNumber
    rw [if_pos h]
  · intro sess p hs hp hsel
    by_cases hr : n < 1 ∨ 10 < n
    · exact ⟨_, by unfold submitNumber; rw [if_pos hr]⟩
    · refine ⟨GameError.badRequest "You have already selected a number.", ?_⟩
      unfold submitNumber
      rw [if_neg hr]
      simp only [hs, hp]
      rw [if_pos hsel]
  · intro sess p h1 h10 hs hp hsel
    refine ⟨_, submitNumber_ok h1 h10 hs hp hsel, rfl, rfl, ?_, ?_⟩
    · have hpm : p ∈ s.players := List.mem_of_find?_eq_some hp
      exact List.mem_map.mpr ⟨p, hpm, by simp⟩
    · intro q hq hne
      exact List.mem_map.mpr ⟨q, hq, by simp [hne]⟩

/-- C5, witness: submitting 0 is rejected with the validation error and
an unchanged store, and the sentinel-holding player of `cxEnded`
successfully submits 5. -/
theorem C5_submit_guards_witness :
    submitNumber 7 0 0 cxEnded =
      (Except.error (GameError.badRequest "Invalid number. Choose between 1 and 10."),
        cxEnded) ∧
    ∃ s2, submitNumber 7 0 11 cxEnded = (Except.error
      (GameError.badRequest "Invalid number. Choose between 1 and 10."), s2) :=
  ⟨(C5_submit_guards cxEnded 7 0 0).1 (Or.inl (by decide)),
   ⟨cxEnded, (C5_submit_guards cxEnded 7 0 11).1 (Or.inr (by decide))⟩⟩

/-- C6: with no session ever created, the status query reports a null
session and `nextSessionIn = cooldownPeriod`; and when the last session
ended at `t1`, the query at `t1 + 3000` ms reports `nextSessionIn = 7`
seconds (cooldown 10 s minus 3 s elapsed, rounded up). -/
theorem C6_status_cooldown (s : Store) (now t1 : Nat) :
    (s.sessions = [] →
      (getActiveSession now s).1 =
        { session := none, timeLeftInSeconds := none,
          nextSessionIn := some cooldownPeriod, status := "waiting" }) ∧
    (∀ last, findActiveSession s = none → findLastEndedSession s = some last →
      last.endedAt = some t1 →
      (getActiveSession (t1 + 3000) s).1 =
        { session := none, timeLeftInSeconds := none,
          nextSessionIn := some 7, status := "waiting" }) := by
  constructor
  · intro h
    have hfa : findActiveSession s = none := by
      unfold findActiveSession
      rw [h]
      rfl
    have hfl : findLastEndedSession s = none := by
      unfold findLastEndedSession
      rw [h]
      rfl
    unfold getActiveSession
    rw [hfa]
    unfold waitingData nextSessionInOf
    rw [hfl]
  · intro last hfa hfl he
    unfold getActiveSession
    simp only [hfa]
    unfold waitingData nextSessionInOf
    simp only [hfl, he]
    have h3 : t1 + 3000 - t1 = 3000 := by omega
    rw [h3]
    rfl

/-- C6, witness: both scenarios evaluated on concrete stores: the empty
store reports 10, and the store whose session ended at 50000 ms reports
7 when asked at 53000 ms. -/
theorem C6_status_cooldown_witness :
    (getActiveSession 12345 emptyStore).1 =
      { session := none, timeLeftInSeconds := none,
        nextSessionIn := some cooldownPeriod, status := "waiting" } ∧
    (getActiveSession 53000 cx6).1 =
      { session := none, timeLeftInSeconds := none,
        nextSessionIn := some 7, status := "waiting" } :=
  ⟨(C6_status_cooldown emptyStore 12345 0).1 rfl,
   (C6_status_cooldown cx6 0 50000).2 cx6last (by decide) (by decide) rfl⟩

/-- C7, counterexample: `cx7` holds an active session past its deadline
at time 31000, yet the status computation reports session `none` and
status waiting — not the session with `timeLeft = 0` as claimed. -/
theorem C7_counterexample :
    findActiveSession cx7 = some cx7session ∧
    cx7session.startedAt + cx7session.duration * 1000 ≤ 31000 ∧
    (getActiveSession 31000 cx7).1 =
      { session := none, timeLeftInSeconds := none,
        nextSessionIn := some 10, status := "waiting" } := by decide

/-- C7 (amended): when the active session is past its deadline (or within
the final second before it), the status computation falls through to the
waiting branch: it reports no active session (null session, null
timeLeft, waiting status) instead of the session with `timeLeft = 0`. -/
theorem C7_expired_session_reports_waiting (s : Store) (now : Nat) (act : Session)
    (h : findActiveSession s = some act)
    (hdl : act.startedAt + act.duration * 1000 ≤ now) :
    (getActiveSession now s).1.session = none ∧
    (getActiveSession now s).1.timeLeftInSeconds = none ∧
    (getActiveSession now s).1.status = "waiting" := by
  unfold getActiveSession
  simp only [h]
  rw [Nat.sub_eq_zero_of_le hdl]
  exact ⟨rfl, rfl, rfl⟩

/-- C7, witness: the amended behaviour evaluated on the concrete expired
store. -/
theorem C7_expired_session_reports_waiting_witness :
    (getActiveSession 31000 cx7).1.session = none ∧
    (getActiveSession 31000 cx7).1.timeLeftInSeconds = none ∧
    (getActiveSession 31000 cx7).1.status = "waiting" :=
  C7_expired_session_reports_waiting cx7 31000 cx7session (by decide) (by decide)

/-- C8: after one settlement run with winning number `w` in [1,10],
every session row holding `w` is marked `isWinner = true`; every session
row holding anything else — in particular the sentinel -1, which can
never equal a valid winning number — is marked `isWinner = false`; and a
user (with a unique user record) whose session rows are all non-winning
receives exactly one loss increment and no win increment. -/
theorem C8_settlement_outcome (s : Store) (gid w uid : Nat)
    (hw1 : 1 ≤ w) (hw10 : w ≤ 10) :
    (∀ p ∈ s.players, p.gameId = gid → p.selectedNumber = (w : Int) →
      { p with isWinner := some true } ∈ (updatePlayerStats gid w s).players) ∧
    (∀ p ∈ s.players, p.gameId = gid → p.selectedNumber ≠ (w : Int) →
      { p with isWinner := some false } ∈ (updatePlayerStats gid w s).players) ∧
    (∀ p ∈ s.players, p.gameId = gid → p.selectedNumber = -1 →
      { p with isWinner := some false } ∈ (updatePlayerStats gid w s).players) ∧
    (s.users.countP (fun v => v.id == uid) = 1 →
      (∃ p ∈ s.players, p.gameId = gid ∧ p.userId = uid) →
      (∀ p ∈ s.players, p.gameId = gid → p.userId = uid → p.selectedNumber ≠ (w : Int)) →
      sumLosses (updatePlayerStats gid w s) uid = sumLosses s uid + 1 ∧
      sumWins (updatePlayerStats gid w s) uid = sumWins s uid) := by
  have hwin : ∀ p ∈ s.players, p.gameId = gid → p.selectedNumber = (w : Int) →
      { p with isWinner := some true } ∈ (updatePlayerStats gid w s).players := by
    intro p hp hg hsel
    rw [updatePlayerStats_players, ← settleMark_of_win gid w hg hsel]
    exact List.mem_map_of_mem _ hp
  have hlose : ∀ p ∈ s.players, p.gameId = gid → p.selectedNumber ≠ (w : Int) →
      { p with isWinner := some false } ∈ (updatePlayerStats gid w s).players := by
    intro p hp hg hsel
    rw [updatePlayerStats_players, ← settleMark_of_lose gid w hg hsel]
    exact List.mem_map_of_mem _ hp
  refine ⟨hwin, hlose, ?_, ?_⟩
  · intro p hp hg hsel
    apply hlose p hp hg
    rw [hsel]
    have : (1 : Int) ≤ (w : Int) := by exact_mod_cast hw1
    omega
  · intro hcnt hex hall
    have hl : ∃ p ∈ s.players, p.gameId = gid ∧ p.selectedNumber ≠ (w : Int) ∧ p.userId = uid := by
      obtain ⟨p, hp, hg, hu⟩ := hex
      exact ⟨p, hp, hg, hall p hp hg hu, hu⟩
    have hnw : ¬ ∃ p ∈ s.players, p.gameId = gid ∧ p.selectedNumber = (w : Int) ∧ p.userId = uid := by
      rintro ⟨p, hp, hg, hsel, hu⟩
      exact hall p hp hg hu hsel
    exact ⟨sumLosses_ups_of_loser hcnt hl, sumWins_ups_of_no_winner hnw⟩

/-- C8, witness: on the concrete store `cx8`, the sentinel-holding user
2 is settled as a loser (row marked false, losses 3 → 4, wins kept). -/
theorem C8_settlement_outcome_witness :
    ({ id := 1, userId := 2, gameId := 0, selectedNumber := -1,
        isWinner := some false } : Player) ∈ (updatePlayerStats 0 4 cx8).players ∧
    sumLosses (updatePlayerStats 0 4 cx8) 2 = sumLosses cx8 2 + 1 ∧
    sumWins (updatePlayerStats 0 4 cx8) 2 = sumWins cx8 2 :=
  have h := C8_settlement_outcome cx8 0 4 2 (by decide) (by decide)
  ⟨h.2.2.1 { id := 1, userId := 2, gameId := 0, selectedNumber := -1, isWinner := none }
      (by decide) rfl rfl,
   h.2.2.2 (by decide)
     ⟨{ id := 1, userId := 2, gameId := 0, selectedNumber := -1, isWinner := none },
       by decide, rfl, rfl⟩
     (by decide)⟩

/-- C9: the status query `getActiveSession` only reads: for every store
and time, the store it returns is the input store, table by table. -/
theorem C9_status_query_is_pure (now : Nat) (s : Store) :
    ((getActiveSession now s).2).sessions = s.sessions ∧
    ((getActiveSession now s).2).players = s.players ∧
    ((getActiveSession now s).2).users = s.users := by
  rw [getActiveSession_store]
  exact ⟨rfl, rfl, rfl⟩

/-- C10: `submitNumber` never checks `isActive` or `winningNumber` of
the target session: whenever the session id exists (the witness uses an
already-ended session), a joined player still holding the sentinel -1
can submit any number in [1,10]; and for an in-range number, a rejection
can only come from a missing session, a missing join record, or an
already-made selection. -/
theorem C10_submit_ignores_session_state (s : Store) (uid gid : Nat) (n : Int) :
    (∀ sess p, 1 ≤ n → n ≤ 10 → findSession s gid = some sess →
      findPlayerIn s uid sess.id = some p → p.selectedNumber = -1 →
      ∃ s2, submitNumber uid gid n s = (Except.ok "Number submitted successfully.", s2)) ∧
    (∀ e, (submitNumber uid gid n s).1 = Except.error e → 1 ≤ n → n ≤ 10 →
      findSession s gid = none ∨
      ∃ sess, findSession s gid = some sess ∧
        (findPlayerIn s uid sess.id = none ∨
         ∃ p, findPlayerIn s uid sess.id = some p ∧ p.selectedNumber ≠ -1)) := by
  constructor
  · intro sess p h1 h10 hs hp hsel
    exact ⟨_, submitNumber_ok h1 h10 hs hp hsel⟩
  · intro e he h1 h10
    cases hq : findSession s gid with
    | none => exact Or.inl rfl
    | some sess =>
      refine Or.inr ⟨sess, rfl, ?_⟩
      cases hp2 : findPlayerIn s uid sess.id with
      | none => exact Or.inl rfl
      | some p =>
        refine Or.inr ⟨p, rfl, ?_⟩
        intro hsel
        rw [submitNumber_ok h1 h10 hq hp2 hsel] at he
        exact Except.noConfusion he

/-- C10, witness: on the ended session of `cxEnded` (inactive, winning
number already drawn), the sentinel-holding player of user 7
successfully submits 5. -/
theorem C10_submit_ignores_session_state_witness :
    ∃ s2, submitNumber 7 0 5 cxEnded =
      (Except.ok "Number submitted successfully.", s2) :=
  (C10_submit_ignores_session_state cxEnded 7 0 5).1 cxEndedSession cxEndedPlayer
    (by decide) (by decide) rfl rfl rfl

end GamingApp
